import Mathlib

/-
Verification development for the stip metric-extraction scripts.

Each Python script is shallowly embedded: pure computations become Lean
functions over ℚ and ℕ, Python exceptions (ZeroDivisionError, IndexError,
AttributeError on a failed gdal.Open) become an explicit `Except PyErr`
monad, and the external collaborators (the GDAL raster decoder, the
s2cloudless classifier, the skimage texture library) are passed in as
black-box function parameters, exactly as the spec declares them to be
external.  Fixed module-level constants (band tables) are embedded as the
same constants.
-/

set_option maxRecDepth 4000
set_option synthInstance.maxSize 512

namespace Stip

/- The Batteries rational-number operations are irreducible by default; this
development evaluates concrete rational computations inside `decide` proofs,
so restore their reducibility within this file. -/
attribute [local semireducible] Rat.mul Rat.inv Rat.add Rat.sub Rat.ofScientific

/-- Python runtime errors that the embedded code can raise. -/
inductive PyErr where
  | zeroDivision
  | indexError
  | attributeError
deriving DecidableEq

deriving instance DecidableEq for Except

/-- Python's true division `a / b`: raises ZeroDivisionError when `b = 0`. -/
def pydiv (a b : ℚ) : Except PyErr ℚ :=
  if b = 0 then .error .zeroDivision else .ok (a / b)

/-- A Python 2-D array (list of rows) of numeric values. -/
abbrev PyArray := List (List ℚ)

namespace CloudCoverage

/- src/sbin/sentinel-2-cloud-coverage.py -/

/-- Line 18: the ten bands fed to the s2cloudless classifier. -/
def BANDS : List String := ["B01", "B02", "B04", "B05",
  "B08", "B8A", "B09", "B10", "B11", "B12"]

/-- One band of an image as seen through gdal: `native` is the array read at
native resolution (`ReadAsArray()`); `sample i j` is the value the decoder
returns at row `i`, column `j` when asked to resample to the common buffer
(`ReadAsArray(buf_xsize=width, buf_ysize=height)`), a decoder black box. -/
structure BandFile where
  native : PyArray
  sample : ℕ → ℕ → ℚ

/-- Native height of an array: `len(array)`. -/
def nativeH (a : PyArray) : ℕ := a.length

/-- Native width of an array: `len(array[0])`, defined when the array is
nonempty. -/
def nativeW (a : PyArray) : ℕ := (a.headD []).length

/-- `len(array[0])`, which raises IndexError on an empty array (line 33). -/
def arrayWidth : PyArray → Except PyErr ℕ
  | [] => .error .indexError
  | r :: _ => .ok r.length

/-- One iteration of the max-dimension loop, lines 25-34: update the running
height with `len(array)` and the running width with `len(array[0])`. -/
def maxDimsStep (wh : ℕ × ℕ) (a : PyArray) : Except PyErr (ℕ × ℕ) := do
  let h := if wh.2 < a.length then a.length else wh.2
  let w0 ← arrayWidth a
  pure (if wh.1 < w0 then w0 else wh.1, h)

/-- Lines 22-34: the (width, height) of the common aligned grid, the fold of
`maxDimsStep` over the bands starting from (0, 0). -/
def compute_max_dims (arrays : List PyArray) : Except PyErr (ℕ × ℕ) :=
  arrays.foldlM maxDimsStep (0, 0)

/-- Lines 39-56: the per-pixel feature grid; entry [i][j] is the list of the
ten resampled band reflectances at pixel (i, j), each divided by 10000, in
`BANDS` order. -/
def band_grid (bandData : String → BandFile) (w h : ℕ) : List (List (List ℚ)) :=
  (List.range h).map (fun i => (List.range w).map (fun j =>
    BANDS.map (fun b => (bandData b).sample i j / 10000)))

/-- Lines 65-70, one inner iteration: bump `clear_pixels` when the mask is 0,
otherwise bump `cloud_pixels`.  The accumulator is (cloud, clear). -/
def count_step (mask : ℕ → ℕ → ℤ) (i : ℕ) (acc : ℕ × ℕ) (j : ℕ) : ℕ × ℕ :=
  if mask i j = 0 then (acc.1, acc.2 + 1) else (acc.1 + 1, acc.2)

/-- Lines 63-70: count (cloud_pixels, clear_pixels) over the h × w grid. -/
def count_pixels (width height : ℕ) (mask : ℕ → ℕ → ℤ) : ℕ × ℕ :=
  (List.range height).foldl
    (fun acc i => (List.range width).foldl (count_step mask i) acc) (0, 0)

/-- Line 73: `cloud_pixels / (cloud_pixels + clear_pixels)`. -/
def coverage_result (width height : ℕ) (mask : ℕ → ℕ → ℤ) : Except PyErr ℚ :=
  let c := count_pixels width height mask
  pydiv (c.1 : ℚ) ((c.1 : ℚ) + (c.2 : ℚ))

/-- Lines 21-73, `compute_cloud_coverage`: max dimensions, feature grid,
classifier mask (black box), then the clear/cloud pixel reduction. -/
def compute_cloud_coverage (bandData : String → BandFile)
    (classifier : List (List (List ℚ)) → ℕ → ℕ → ℤ) : Except PyErr ℚ := do
  let wh ← compute_max_dims (BANDS.map (fun b => (bandData b).native))
  let grid := band_grid bandData wh.1 wh.2
  let cloud_masks := classifier grid
  coverage_result wh.1 wh.2 cloud_masks

/-- One raster file on disk under the `geohash` directory, identified by its
band directory, source directory and tile filename; the glob pattern
`*/<source>/<tile>` of line 89 matches on the last two components. -/
structure TileFile where
  band : String
  source : String
  tile : String
deriving DecidableEq

/-- One metadata write performed by `SetMetadataItem` (lines 90-92). -/
structure TagWrite where
  file : TileFile
  key : String
  domain : String
  value : ℚ
deriving DecidableEq

/-- Line 89: the files matched by `path.parents[2].glob('*/source/tile')`:
all files in the directory listing whose source and tile components match.
A directory listing enumerates each existing file once. -/
def glob_matches (fs : List TileFile) (source tile : String) : List TileFile :=
  fs.filter (fun f => f.source = source ∧ f.tile = tile)

/-- Lines 88-92: set the CLOUD_COVERAGE tag in the STIP namespace on every
glob-matched band file. -/
def update_bands (fs : List TileFile) (source tile : String) (v : ℚ) : List TagWrite :=
  (glob_matches fs source tile).map (fun f => ⟨f, "CLOUD_COVERAGE", "STIP", v⟩)

end CloudCoverage

namespace SpectralMetrics

/- src/sbin/sentinel-2/spectral-metrics.py -/

/-- A gdal dataset opened from one FileRef: raster dimensions and, per band
index, the decoder's resampled reader (`GetRasterBand(b).ReadAsArray(
buf_xsize=w, buf_ysize=h)` delegated to gdal as a black box; `band b i j` is
the value at row `i`, column `j` of the resampled buffer). -/
structure RasterFile where
  xsize : ℕ
  ysize : ℕ
  band : ℕ → ℕ → ℕ → ℚ

/-- `gdal.Open(image.files[i].path)`: IndexError when `i` is out of range,
AttributeError (on first use) when gdal.Open fails and returns None. -/
def getFile (files : List (Option RasterFile)) (i : ℕ) : Except PyErr RasterFile :=
  match files[i]? with
  | none => .error .indexError
  | some none => .error .attributeError
  | some (some f) => .ok f

/-- Line 14: the (file-index, band-index) selector list. -/
def BANDS : List (ℕ × ℕ) := [(0, 1), (0, 2), (0, 3), (0, 4), (1, 5)]

/-- One iteration of the max-dimension loop, lines 20-26. -/
def spectral_dims_step (wh : ℕ × ℕ) (d : ℕ × ℕ) : ℕ × ℕ :=
  (if wh.1 < d.1 then d.1 else wh.1, if wh.2 < d.2 then d.2 else wh.2)

/-- The pure dimension fold underlying lines 17-26. -/
def spectral_dims (dims : List (ℕ × ℕ)) : ℕ × ℕ :=
  dims.foldl spectral_dims_step (0, 0)

/-- Lines 17-26: open each selected file and fold its RasterXSize and
RasterYSize into the running maxima. -/
def open_dims (files : List (Option RasterFile)) : Except PyErr (ℕ × ℕ) :=
  BANDS.foldlM (fun wh fb => do
    let f ← getFile files fb.1
    pure (spectral_dims_step wh (f.xsize, f.ysize))) (0, 0)

/-- Lines 38-41: open each selected file again and collect the resampled
reader of its selected band, in `BANDS` order. -/
def open_readers (files : List (Option RasterFile)) :
    Except PyErr (List (ℕ → ℕ → ℚ)) :=
  BANDS.foldlM (fun rs fb => do
    let f ← getFile files fb.1
    pure (rs ++ [f.band fb.2])) []

/-- Lines 31-47: `band_array`, the w × h grid whose entry [i][j] is the list
of the five resampled band values at pixel (i, j), each divided by 10000. -/
def band_array (readers : List (ℕ → ℕ → ℚ)) (w h : ℕ) : List (List (List ℚ)) :=
  (List.range h).map (fun i => (List.range w).map (fun j =>
    readers.map (fun r => r i j / 10000)))

/-- Lines 55-66, one pixel: read b02..b11 out of `band_array[i][j]` and add
the four index values to the running totals; each Python `/` may raise
ZeroDivisionError.  The accumulator is (bsi, ndbi, ndvi, ndwi). -/
def pixel_step (vec : List ℚ) (acc : ℚ × ℚ × ℚ × ℚ) :
    Except PyErr (ℚ × ℚ × ℚ × ℚ) := do
  let b02 := vec.getD 0 0
  let b03 := vec.getD 1 0
  let b04 := vec.getD 2 0
  let b08 := vec.getD 3 0
  let b11 := vec.getD 4 0
  let bsi ← pydiv ((b11 + b04) - (b08 + b02)) ((b11 + b04) + (b08 + b02))
  let ndbi ← pydiv (b11 - b08) (b11 + b08)
  let ndvi ← pydiv (b08 - b04) (b08 + b04)
  let ndwi ← pydiv (b03 - b08) (b03 + b08)
  pure (acc.1 + bsi, acc.2.1 + ndbi, acc.2.2.1 + ndvi, acc.2.2.2 + ndwi)

/-- Lines 49-66: the double loop accumulating the four totals over the grid. -/
def accumulate (w h : ℕ) (arr : List (List (List ℚ))) :
    Except PyErr (ℚ × ℚ × ℚ × ℚ) :=
  (List.range h).foldlM (fun acc i =>
    (List.range w).foldlM (fun acc j =>
      pixel_step ((arr.getD i []).getD j []) acc) acc) (0, 0, 0, 0)

/-- Lines 16-70, `compute_spectral_metrics`: dimensions, band_array, totals,
then each total divided by `total_pixels = width * height`. -/
def compute_spectral_metrics (files : List (Option RasterFile)) :
    Except PyErr (ℚ × ℚ × ℚ × ℚ) := do
  let wh ← open_dims files
  let readers ← open_readers files
  let totals ← accumulate wh.1 wh.2 (band_array readers wh.1 wh.2)
  let total_pixels : ℚ := ((wh.1 * wh.2 : ℕ) : ℚ)
  let r1 ← pydiv totals.1 total_pixels
  let r2 ← pydiv totals.2.1 total_pixels
  let r3 ← pydiv totals.2.2.1 total_pixels
  let r4 ← pydiv totals.2.2.2 total_pixels
  pure (r1, r2, r3, r4)

/-- One catalog image record as used by this script. -/
structure SpectralImage where
  geocode : String
  timestamp : ℤ
  files : List (Option RasterFile)

/-- Lines 72-83, `process`: skip (with a printed diagnostic) when the file
list does not have exactly 4 entries, otherwise compute and report the four
averages.  `.ok none` is the diagnostic skip; `.ok (some r)` the report. -/
def process (image : SpectralImage) :
    Except PyErr (Option (String × ℤ × (ℚ × ℚ × ℚ × ℚ))) :=
  if image.files.length ≠ 4 then .ok none
  else (compute_spectral_metrics image.files).map
    (fun r => some (image.geocode, image.timestamp, r))

/- Spec-side definitions (section 4.5 of the spec), for comparison with the
embedded code: the five scaled band values, the four per-pixel indices with
their denominators, and the arithmetic mean over the grid. -/

/-- Spec: scaled B02 value of pixel (i, j): band 1 of file 0, divided by 10000. -/
def b02v (f0 : RasterFile) (i j : ℕ) : ℚ := f0.band 1 i j / 10000

/-- Spec: scaled B03 value: band 2 of file 0. -/
def b03v (f0 : RasterFile) (i j : ℕ) : ℚ := f0.band 2 i j / 10000

/-- Spec: scaled B04 value: band 3 of file 0. -/
def b04v (f0 : RasterFile) (i j : ℕ) : ℚ := f0.band 3 i j / 10000

/-- Spec: scaled B08 value: band 4 of file 0. -/
def b08v (f0 : RasterFile) (i j : ℕ) : ℚ := f0.band 4 i j / 10000

/-- Spec: scaled B11 value: band 5 of file 1. -/
def b11v (f1 : RasterFile) (i j : ℕ) : ℚ := f1.band 5 i j / 10000

/-- Spec: BSI denominator (B11+B04)+(B08+B02). -/
def bsi_den (f0 f1 : RasterFile) (i j : ℕ) : ℚ :=
  (b11v f1 i j + b04v f0 i j) + (b08v f0 i j + b02v f0 i j)

/-- Spec: BSI = ((B11+B04)−(B08+B02)) / ((B11+B04)+(B08+B02)). -/
def bsi_px (f0 f1 : RasterFile) (i j : ℕ) : ℚ :=
  ((b11v f1 i j + b04v f0 i j) - (b08v f0 i j + b02v f0 i j)) / bsi_den f0 f1 i j

/-- Spec: NDBI denominator B11+B08. -/
def ndbi_den (f0 f1 : RasterFile) (i j : ℕ) : ℚ := b11v f1 i j + b08v f0 i j

/-- Spec: NDBI = (B11−B08)/(B11+B08). -/
def ndbi_px (f0 f1 : RasterFile) (i j : ℕ) : ℚ :=
  (b11v f1 i j - b08v f0 i j) / ndbi_den f0 f1 i j

/-- Spec: NDVI denominator B08+B04. -/
def ndvi_den (f0 : RasterFile) (i j : ℕ) : ℚ := b08v f0 i j + b04v f0 i j

/-- Spec: NDVI = (B08−B04)/(B08+B04). -/
def ndvi_px (f0 : RasterFile) (i j : ℕ) : ℚ :=
  (b08v f0 i j - b04v f0 i j) / ndvi_den f0 i j

/-- Spec: NDWI denominator B03+B08. -/
def ndwi_den (f0 : RasterFile) (i j : ℕ) : ℚ := b03v f0 i j + b08v f0 i j

/-- Spec: NDWI = (B03−B08)/(B03+B08). -/
def ndwi_px (f0 : RasterFile) (i j : ℕ) : ℚ :=
  (b03v f0 i j - b08v f0 i j) / ndwi_den f0 i j

/-- Spec: the aligned grid width for an image whose selectors resolve to
files f0 and f1: the maximum native width. -/
def grid_w (f0 f1 : RasterFile) : ℕ := max f0.xsize f1.xsize

/-- Spec: the aligned grid height: the maximum native height. -/
def grid_h (f0 f1 : RasterFile) : ℕ := max f0.ysize f1.ysize

/-- Spec: arithmetic mean of a per-pixel quantity over all w*h pixels. -/
def gridMean (w h : ℕ) (g : ℕ → ℕ → ℚ) : ℚ :=
  (∑ i ∈ Finset.range h, ∑ j ∈ Finset.range w, g i j) / ((w * h : ℕ) : ℚ)

end SpectralMetrics

/-- The dispatcher, `multiprocessing.Pool.map(process, images)`: every image
is handed to `process`; an exception raised by any call is re-raised by
`pool.map` in the parent process, so the whole map produces either the list
of all per-image results or the propagated error. -/
def pool_map {α β : Type} (f : α → Except PyErr β) : List α → Except PyErr (List β)
  | [] => .ok []
  | x :: xs => do
    let b ← f x
    let bs ← pool_map f xs
    pure (b :: bs)

namespace PixelCategory

/- src/sbin/feature-extraction/nlcd-pixel-category.py -/

/-- Lines 22-25, one pixel value `v`: insert `v ↦ 0` if absent (Python dicts
keep insertion order), then increment `pixels[v]`.  The dict is an ordered
association list. -/
def histStep (pixels : List (ℤ × ℕ)) (v : ℤ) : List (ℤ × ℕ) :=
  (if (pixels.lookup v).isNone then pixels ++ [(v, 0)] else pixels).map
    (fun p => if p.1 = v then (p.1, p.2 + 1) else p)

/-- Lines 19-25: aggregate pixel values of the whole array, row-major. -/
def pixel_counts (array : List (List ℤ)) : List (ℤ × ℕ) :=
  array.foldl (fun pixels row => row.foldl histStep pixels) []

/-- Spec: the distinct values of `l` in order of first occurrence. -/
def firstOccur (l : List ℤ) : List ℤ :=
  l.foldl (fun acc v => if v ∈ acc then acc else acc ++ [v]) []

/-- Spec: the histogram as described in section 4.5: each distinct value,
in first-occurrence order, paired with its occurrence count. -/
def hist_spec (d : List ℤ) : List (ℤ × ℕ) :=
  (firstOccur d).map (fun k => (k, d.count k))

end PixelCategory

namespace Glcm

/- src/sbin/feature-extraction/sentinel-2-glcm.py -/

/-- The ubyte grayscale image of line 19: pixel values are 8-bit levels. -/
structure GrayImage where
  rows : ℕ
  cols : ℕ
  pix : ℕ → ℕ → Fin 256

/-- Line 22: the co-occurrence distances. -/
def distances : List ℕ := [1, 2, 3]

/-- Modelled from the spec: the pixel offset of one (angle, distance) pair of
the greycomatrix call of lines 24-26, for the four angles 0°, 45°, 90°, 135°
(angle index 0..3); the greycomatrix internals are an external library
(skimage), declared a black box by the spec, so the offset geometry follows
the spec's description of the four angles. -/
def offset (a d : ℕ) : ℤ × ℤ :=
  if a = 0 then (0, (d : ℤ))
  else if a = 1 then ((d : ℤ), (d : ℤ))
  else if a = 2 then ((d : ℤ), 0)
  else ((d : ℤ), -(d : ℤ))

/-- All pixel positions of the image. -/
def posGrid (img : GrayImage) : Finset (ℕ × ℕ) :=
  Finset.range img.rows ×ˢ Finset.range img.cols

/-- Position `p` has its offset partner inside the image. -/
def inGrid (img : GrayImage) (off : ℤ × ℤ) (p : ℕ × ℕ) : Prop :=
  0 ≤ (p.1 : ℤ) + off.1 ∧ (p.1 : ℤ) + off.1 < (img.rows : ℤ)
    ∧ 0 ≤ (p.2 : ℤ) + off.2 ∧ (p.2 : ℤ) + off.2 < (img.cols : ℤ)

instance (img : GrayImage) (off : ℤ × ℤ) (p : ℕ × ℕ) : Decidable (inGrid img off p) := by
  unfold inGrid; infer_instance

/-- The number of co-occurring pixel pairs at the given offset. -/
def validPairs (img : GrayImage) (off : ℤ × ℤ) : ℕ :=
  ((posGrid img).filter (fun p => inGrid img off p)).card

/-- The (level, level) pair at position `p` and its offset partner. -/
def pixAt (img : GrayImage) (off : ℤ × ℤ) (p : ℕ × ℕ) : Fin 256 × Fin 256 :=
  (img.pix p.1 p.2, img.pix ((p.1 : ℤ) + off.1).toNat ((p.2 : ℤ) + off.2).toNat)

/-- Modelled from the spec: entry (i, j) of the raw co-occurrence count
matrix at one offset. -/
def pairCount (img : GrayImage) (off : ℤ × ℤ) (i j : Fin 256) : ℕ :=
  ((posGrid img).filter (fun p => inGrid img off p ∧ pixAt img off p = (i, j))).card

/-- Modelled from the spec: the symmetric count matrix (the matrix plus its
transpose), per `symmetric=True` of line 26. -/
def symCount (img : GrayImage) (off : ℤ × ℤ) (i j : Fin 256) : ℕ :=
  pairCount img off i j + pairCount img off j i

/-- The total mass of the symmetric count matrix. -/
def symTotal (img : GrayImage) (off : ℤ × ℤ) : ℕ :=
  ∑ q : Fin 256 × Fin 256, symCount img off q.1 q.2

/-- Modelled from the spec: the normalized co-occurrence matrix, per
`normed=True` of line 26: each entry divided by the matrix total. -/
def normP (img : GrayImage) (off : ℤ × ℤ) (i j : Fin 256) : ℚ :=
  (symCount img off i j : ℚ) / (symTotal img off : ℚ)

/-- Modelled from the spec: the contrast property, Σ (i−j)² P(i,j). -/
def contrastProp (P : Fin 256 → Fin 256 → ℚ) : ℚ :=
  ∑ q : Fin 256 × Fin 256, (((q.1 : ℕ) : ℚ) - ((q.2 : ℕ) : ℚ)) ^ 2 * P q.1 q.2

/-- Modelled from the spec: the dissimilarity property, Σ |i−j| P(i,j). -/
def dissimilarityProp (P : Fin 256 → Fin 256 → ℚ) : ℚ :=
  ∑ q : Fin 256 × Fin 256, |((q.1 : ℕ) : ℚ) - ((q.2 : ℕ) : ℚ)| * P q.1 q.2

/-- Modelled from the spec: the homogeneity property, Σ P(i,j)/(1+(i−j)²). -/
def homogeneityProp (P : Fin 256 → Fin 256 → ℚ) : ℚ :=
  ∑ q : Fin 256 × Fin 256, P q.1 q.2 / (1 + (((q.1 : ℕ) : ℚ) - ((q.2 : ℕ) : ℚ)) ^ 2)

/-- Modelled from the spec: the angular second moment, Σ P(i,j)². -/
def asmProp (P : Fin 256 → Fin 256 → ℚ) : ℚ :=
  ∑ q : Fin 256 × Fin 256, P q.1 q.2 ^ 2

/-- Modelled from the spec: the energy property, the square root of the
angular second moment. -/
noncomputable def energyProp (P : Fin 256 → Fin 256 → ℚ) : ℝ :=
  Real.sqrt ((asmProp P : ℚ) : ℝ)

/-- Modelled from the spec: row-level mean of the matrix. -/
def meanI (P : Fin 256 → Fin 256 → ℚ) : ℚ :=
  ∑ q : Fin 256 × Fin 256, ((q.1 : ℕ) : ℚ) * P q.1 q.2

/-- Modelled from the spec: column-level mean of the matrix. -/
def meanJ (P : Fin 256 → Fin 256 → ℚ) : ℚ :=
  ∑ q : Fin 256 × Fin 256, ((q.2 : ℕ) : ℚ) * P q.1 q.2

/-- Modelled from the spec: row-level variance. -/
def varI (P : Fin 256 → Fin 256 → ℚ) : ℚ :=
  ∑ q : Fin 256 × Fin 256, (((q.1 : ℕ) : ℚ) - meanI P) ^ 2 * P q.1 q.2

/-- Modelled from the spec: column-level variance. -/
def varJ (P : Fin 256 → Fin 256 → ℚ) : ℚ :=
  ∑ q : Fin 256 × Fin 256, (((q.2 : ℕ) : ℚ) - meanJ P) ^ 2 * P q.1 q.2

/-- Modelled from the spec: covariance of row and column levels. -/
def covIJ (P : Fin 256 → Fin 256 → ℚ) : ℚ :=
  ∑ q : Fin 256 × Fin 256,
    (((q.1 : ℕ) : ℚ) - meanI P) * (((q.2 : ℕ) : ℚ) - meanJ P) * P q.1 q.2

/-- Modelled from the spec: the correlation property (1 at degenerate
variance, as the library defines it). -/
noncomputable def correlationProp (P : Fin 256 → Fin 256 → ℚ) : ℝ :=
  if varI P * varJ P = 0 then 1
  else ((covIJ P : ℚ) : ℝ) / Real.sqrt (((varI P * varJ P : ℚ) : ℝ))

/-- Contrast as a real-valued property. -/
def contrastR (P : Fin 256 → Fin 256 → ℚ) : ℝ := ((contrastProp P : ℚ) : ℝ)

/-- Dissimilarity as a real-valued property. -/
def dissimilarityR (P : Fin 256 → Fin 256 → ℚ) : ℝ := ((dissimilarityProp P : ℚ) : ℝ)

/-- Homogeneity as a real-valued property. -/
def homogeneityR (P : Fin 256 → Fin 256 → ℚ) : ℝ := ((homogeneityProp P : ℚ) : ℝ)

/-- Angular second moment as a real-valued property. -/
def asmR (P : Fin 256 → Fin 256 → ℚ) : ℝ := ((asmProp P : ℚ) : ℝ)

/-- The six properties in the order the script extends `data` with them
(lines 29-42): contrast, dissimilarity, homogeneity, energy, correlation,
ASM. -/
noncomputable def properties : List ((Fin 256 → Fin 256 → ℚ) → ℝ) :=
  [contrastR, dissimilarityR, homogeneityR, energyProp, correlationProp, asmR]

/-- Lines 29-34: `greycoprops(matrix, prop).mean(axis=1)` at one distance:
the property of the normalized matrix averaged over the four angles. -/
noncomputable def propAvg (img : GrayImage)
    (prop : (Fin 256 → Fin 256 → ℚ) → ℝ) (d : ℕ) : ℝ :=
  (∑ a ∈ Finset.range 4, prop (normP img (offset a d))) / 4

/-- Lines 36-42: the flattened feature vector `data`: for every property in
order, its three per-distance angle-averages. -/
noncomputable def glcm_features (img : GrayImage) : List ℝ :=
  distances.map (propAvg img contrastR) ++ distances.map (propAvg img dissimilarityR)
    ++ distances.map (propAvg img homogeneityR) ++ distances.map (propAvg img energyProp)
    ++ distances.map (propAvg img correlationProp) ++ distances.map (propAvg img asmR)

/-- One catalog image record as used by the glcm script. -/
structure GlcmImage where
  geocode : String
  timestamp : ℤ
  files : List String
deriving DecidableEq

/-- Lines 66-76, one image of the selection loop: skip silently when the file
list does not have exactly 4 entries; otherwise insert into the geocode
dictionary, replacing an existing entry when this image is closer to the
target date. -/
def glcmStep (date : ℤ) (m : List (String × GlcmImage)) (img : GlcmImage) :
    List (String × GlcmImage) :=
  if img.files.length ≠ 4 then m
  else
    match m.lookup img.geocode with
    | none => m ++ [(img.geocode, img)]
    | some prev =>
      if (prev.timestamp - date).natAbs > (img.timestamp - date).natAbs then
        m.map (fun p => if p.1 = img.geocode then (p.1, img) else p)
      else m

/-- Lines 62-76: the images dictionary built from the catalog stream; its
values are the images subsequently processed by the pool. -/
def glcm_images (date : ℤ) (imgs : List GlcmImage) : List (String × GlcmImage) :=
  imgs.foldl (glcmStep date) []

end Glcm

/- Concrete inputs used by witnesses and counterexamples. -/

/-- A 1×1 file whose bands 1..4 hold the raw values 1000, 2000, 1500, 3000
(B02, B03, B04, B08 of the spec's section 8 example). -/
def f0c : SpectralMetrics.RasterFile :=
  ⟨1, 1, fun b _ _ => if b = 1 then 1000 else if b = 2 then 2000
    else if b = 3 then 1500 else 3000⟩

/-- A 1×1 file whose band 5 holds the raw value 2500 (B11 of the example). -/
def f1c : SpectralMetrics.RasterFile := ⟨1, 1, fun _ _ _ => 2500⟩

/-- An image with 4 openable files whose pixel has no zero denominator. -/
def goodImage : SpectralMetrics.SpectralImage :=
  ⟨"9q8y", 0, [some f0c, some f1c, some f0c, some f0c]⟩

/-- An image with 4 files whose first file cannot be opened by gdal. -/
def badImage : SpectralMetrics.SpectralImage :=
  ⟨"9q8z", 0, [none, some f1c, some f0c, some f0c]⟩

/-- An image with only 3 files. -/
def shortImage : SpectralMetrics.SpectralImage :=
  ⟨"9q8w", 0, [some f0c, some f1c, some f0c]⟩

/-- A 1×1 file all of whose bands read 0. -/
def zeroRaster : SpectralMetrics.RasterFile := ⟨1, 1, fun _ _ _ => 0⟩

/-- Four all-zero files: every spectral denominator is zero at pixel (0,0). -/
def zeroFiles : List (Option SpectralMetrics.RasterFile) :=
  [some zeroRaster, some zeroRaster, some zeroRaster, some zeroRaster]

/-- The image holding `zeroFiles`. -/
def zeroImage : SpectralMetrics.SpectralImage := ⟨"9q8v", 0, zeroFiles⟩

/-- A 0×0 file. -/
def emptyRaster : SpectralMetrics.RasterFile := ⟨0, 0, fun _ _ _ => 0⟩

/-- Four 0×0 files: the aligned grid has zero pixels. -/
def emptyFiles : List (Option SpectralMetrics.RasterFile) :=
  [some emptyRaster, some emptyRaster, some emptyRaster, some emptyRaster]

/-- Band data whose native arrays are all empty (native width and height 0). -/
def emptyBandData : String → CloudCoverage.BandFile := fun _ => ⟨[], fun _ _ => 0⟩

/-- Band data whose native arrays have one empty row (height 1, width 0). -/
def zeroWidthBandData : String → CloudCoverage.BandFile := fun _ => ⟨[[]], fun _ _ => 0⟩

/-- A classifier that marks every pixel clear. -/
def zclass : List (List (List ℚ)) → ℕ → ℕ → ℤ := fun _ _ _ => 0

/-- A cloud mask that marks every pixel clear. -/
def zmask : ℕ → ℕ → ℤ := fun _ _ => 0

/-- Two native band arrays, of shapes 1×1 and 2×2. -/
def arraysW : List PyArray := [[[1]], [[1, 2], [3, 4]]]

/-- A 4×4 all-zero grayscale image. -/
def w4img : Glcm.GrayImage := ⟨4, 4, fun _ _ => 0⟩

/-- A glcm catalog image with 4 files. -/
def g1 : Glcm.GlcmImage := ⟨"a", 10, ["p", "q", "r", "s"]⟩

/-- A glcm catalog image with only 2 files. -/
def g2 : Glcm.GlcmImage := ⟨"b", 3, ["p", "q"]⟩

/-- A small duplicate-free directory listing. -/
def fsW : List CloudCoverage.TileFile :=
  [⟨"B01", "s", "t"⟩, ⟨"B02", "s", "t"⟩, ⟨"B01", "s", "u"⟩]

/- Generic lemmas about the embedded Python control flow. -/

theorem ok_bind {α β : Type} (a : α) (f : α → Except PyErr β) :
    ((Except.ok a : Except PyErr α) >>= f) = f a := rfl

theorem ok_map {α β : Type} (a : α) (f : α → β) :
    (f <$> (Except.ok a : Except PyErr α)) = .ok (f a) := rfl

theorem pydiv_ok (a b : ℚ) (hb : b ≠ 0) : pydiv a b = .ok (a / b) := by
  unfold pydiv; rw [if_neg hb]

theorem foldlM_ok {α β : Type} (f : β → α → Except PyErr β) (g : β → α → β)
    (l : List α) (h : ∀ b : β, ∀ a ∈ l, f b a = .ok (g b a)) :
    ∀ b : β, l.foldlM f b = .ok (l.foldl g b) := by
  induction l with
  | nil => intro b; rfl
  | cons a t ih =>
    intro b
    have hstep : (a :: t).foldlM f b = (f b a >>= fun x => t.foldlM f x) := rfl
    rw [hstep, h b a (List.mem_cons_self a t), ok_bind]
    exact ih (fun b x hx => h b x (List.mem_cons_of_mem a hx)) (g b a)

theorem foldl_add2_range (n : ℕ) (u v : ℕ → ℕ) (ab : ℕ × ℕ) :
    (List.range n).foldl (fun acc k => (acc.1 + u k, acc.2 + v k)) ab
      = (ab.1 + ∑ k ∈ Finset.range n, u k, ab.2 + ∑ k ∈ Finset.range n, v k) := by
  induction n with
  | zero => simp
  | succ m ih =>
    rw [List.range_succ, List.foldl_append, ih]
    simp [Finset.sum_range_succ, Nat.add_assoc]

theorem foldl_add4_range (n : ℕ) (u v x y : ℕ → ℚ) (ac : ℚ × ℚ × ℚ × ℚ) :
    (List.range n).foldl
      (fun acc k => (acc.1 + u k, acc.2.1 + v k, acc.2.2.1 + x k, acc.2.2.2 + y k)) ac
      = (ac.1 + ∑ k ∈ Finset.range n, u k, ac.2.1 + ∑ k ∈ Finset.range n, v k,
         ac.2.2.1 + ∑ k ∈ Finset.range n, x k, ac.2.2.2 + ∑ k ∈ Finset.range n, y k) := by
  induction n with
  | zero => simp
  | succ m ih =>
    rw [List.range_succ, List.foldl_append, ih]
    simp [Finset.sum_range_succ, add_assoc]

theorem if_lt_max (m x : ℕ) : (if m < x then x else m) = max m x := by
  rcases Nat.lt_or_ge m x with h | h
  · rw [if_pos h, Nat.max_eq_right h.le]
  · rw [if_neg (Nat.not_lt.mpr h), Nat.max_eq_left h]

theorem foldl_max_init (l : List ℕ) : ∀ acc : ℕ, acc ≤ l.foldl max acc := by
  induction l with
  | nil => exact fun _ => le_refl _
  | cons a t ih => exact fun acc => le_trans (Nat.le_max_left acc a) (ih (max acc a))

theorem le_foldl_max (l : List ℕ) (x : ℕ) (hx : x ∈ l) :
    ∀ acc : ℕ, x ≤ l.foldl max acc := by
  induction l with
  | nil => cases hx
  | cons a t ih =>
    intro acc
    rcases List.mem_cons.mp hx with rfl | hxt
    · exact le_trans (Nat.le_max_right acc x) (foldl_max_init t (max acc x))
    · exact ih hxt (max acc a)

theorem foldl_max_pair {α : Type} (l : List α) (w h : α → ℕ) :
    ∀ acc : ℕ × ℕ,
      l.foldl (fun wh a => (max wh.1 (w a), max wh.2 (h a))) acc
        = ((l.map w).foldl max acc.1, (l.map h).foldl max acc.2) := by
  induction l with
  | nil => intro acc; rfl
  | cons a t ih => intro acc; exact ih (max acc.1 (w a), max acc.2 (h a))

theorem pool_map_error {α β : Type} (f : α → Except PyErr β) :
    ∀ (l : List α) (x : α) (e : PyErr), x ∈ l → f x = .error e →
      ∃ e2, pool_map f l = .error e2 := by
  intro l
  induction l with
  | nil => intro x e hx; cases hx
  | cons y t ih =>
    intro x e hx hfx
    rcases hy : f y with ey | b
    · exact ⟨ey, by unfold pool_map; rw [hy]; rfl⟩
    · rcases List.mem_cons.mp hx with rfl | hxt
      · rw [hy] at hfx; cases hfx
      · obtain ⟨e2, ht⟩ := ih x e hxt hfx
        refine ⟨e2, ?_⟩
        show (f y >>= fun b => pool_map f t >>= fun bs => pure (b :: bs)) = .error e2
        rw [hy, ok_bind, ht]
        rfl

/- Cloud-coverage helper lemmas. -/

namespace CloudCoverage

theorem maxDimsStep_ok (wh : ℕ × ℕ) (a : PyArray) (ha : a ≠ []) :
    maxDimsStep wh a = .ok (max wh.1 (nativeW a), max wh.2 (nativeH a)) := by
  cases a with
  | nil => exact absurd rfl ha
  | cons r t =>
    show Except.ok (if wh.1 < r.length then r.length else wh.1,
        if wh.2 < (r :: t).length then (r :: t).length else wh.2) = _
    rw [if_lt_max, if_lt_max]
    rfl

theorem compute_max_dims_ok (arrays : List PyArray) (hne : ∀ a ∈ arrays, a ≠ []) :
    compute_max_dims arrays
      = .ok ((arrays.map nativeW).foldl max 0, (arrays.map nativeH).foldl max 0) := by
  unfold compute_max_dims
  rw [foldlM_ok maxDimsStep (fun wh a => (max wh.1 (nativeW a), max wh.2 (nativeH a)))
    arrays (fun wh a haa => maxDimsStep_ok wh a (hne a haa)) (0, 0)]
  rw [foldl_max_pair arrays nativeW nativeH (0, 0)]

theorem count_step_eq (mask : ℕ → ℕ → ℤ) (i : ℕ) (acc : ℕ × ℕ) (j : ℕ) :
    count_step mask i acc j
      = (acc.1 + (if mask i j = 0 then 0 else 1),
         acc.2 + (if mask i j = 0 then 1 else 0)) := by
  unfold count_step; split <;> simp

theorem count_pixels_eq (width height : ℕ) (mask : ℕ → ℕ → ℤ) :
    count_pixels width height mask
      = (∑ i ∈ Finset.range height, ∑ j ∈ Finset.range width,
           (if mask i j = 0 then 0 else 1),
         ∑ i ∈ Finset.range height, ∑ j ∈ Finset.range width,
           (if mask i j = 0 then 1 else 0)) := by
  unfold count_pixels
  have hinner : ∀ (acc : ℕ × ℕ) (i : ℕ),
      (List.range width).foldl (count_step mask i) acc
        = (acc.1 + ∑ j ∈ Finset.range width, (if mask i j = 0 then 0 else 1),
           acc.2 + ∑ j ∈ Finset.range width, (if mask i j = 0 then 1 else 0)) := by
    intro acc i
    rw [List.foldl_ext (count_step mask i)
      (fun acc j => (acc.1 + (if mask i j = 0 then 0 else 1),
        acc.2 + (if mask i j = 0 then 1 else 0)))
      acc (fun a j _ => count_step_eq mask i a j)]
    exact foldl_add2_range width _ _ acc
  rw [List.foldl_ext _
    (fun acc i => (acc.1 + ∑ j ∈ Finset.range width, (if mask i j = 0 then 0 else 1),
      acc.2 + ∑ j ∈ Finset.range width, (if mask i j = 0 then 1 else 0)))
    (0, 0) (fun a i _ => hinner a i)]
  rw [foldl_add2_range]
  simp

end CloudCoverage

/- Spectral-metrics helper lemmas. -/

namespace SpectralMetrics

theorem spectral_dims_eq (dims : List (ℕ × ℕ)) :
    spectral_dims dims
      = ((dims.map Prod.fst).foldl max 0, (dims.map Prod.snd).foldl max 0) := by
  unfold spectral_dims
  rw [List.foldl_ext spectral_dims_step (fun wh d => (max wh.1 d.1, max wh.2 d.2)) (0, 0)
    (fun a d _ => by unfold spectral_dims_step; rw [if_lt_max, if_lt_max])]
  exact foldl_max_pair dims Prod.fst Prod.snd (0, 0)

theorem open_dims_eval (f0 f1 : RasterFile) (r2 r3 : Option RasterFile) :
    open_dims [some f0, some f1, r2, r3] = .ok (grid_w f0 f1, grid_h f0 f1) := by
  have h1 : open_dims [some f0, some f1, r2, r3]
      = .ok (spectral_dims_step (spectral_dims_step (spectral_dims_step (spectral_dims_step
          (spectral_dims_step (0, 0) (f0.xsize, f0.ysize)) (f0.xsize, f0.ysize))
          (f0.xsize, f0.ysize)) (f0.xsize, f0.ysize)) (f1.xsize, f1.ysize)) := rfl
  rw [h1]
  simp [spectral_dims_step, if_lt_max, grid_w, grid_h]

theorem open_readers_eval (f0 f1 : RasterFile) (r2 r3 : Option RasterFile) :
    open_readers [some f0, some f1, r2, r3]
      = .ok [f0.band 1, f0.band 2, f0.band 3, f0.band 4, f1.band 5] := rfl

theorem band_array_get (readers : List (ℕ → ℕ → ℚ)) (w h i j : ℕ)
    (hi : i < h) (hj : j < w) :
    ((band_array readers w h).getD i []).getD j []
      = readers.map (fun r => r i j / 10000) := by
  simp [band_array, List.getD_eq_getElem?_getD, List.getElem?_map, List.getElem?_range,
    hi, hj]

theorem pixel_step_ok (vec : List ℚ) (acc : ℚ × ℚ × ℚ × ℚ)
    (h1 : (vec.getD 4 0 + vec.getD 2 0) + (vec.getD 3 0 + vec.getD 0 0) ≠ 0)
    (h2 : vec.getD 4 0 + vec.getD 3 0 ≠ 0)
    (h3 : vec.getD 3 0 + vec.getD 2 0 ≠ 0)
    (h4 : vec.getD 1 0 + vec.getD 3 0 ≠ 0) :
    pixel_step vec acc = .ok
      (acc.1 + ((vec.getD 4 0 + vec.getD 2 0) - (vec.getD 3 0 + vec.getD 0 0))
          / ((vec.getD 4 0 + vec.getD 2 0) + (vec.getD 3 0 + vec.getD 0 0)),
       acc.2.1 + (vec.getD 4 0 - vec.getD 3 0) / (vec.getD 4 0 + vec.getD 3 0),
       acc.2.2.1 + (vec.getD 3 0 - vec.getD 2 0) / (vec.getD 3 0 + vec.getD 2 0),
       acc.2.2.2 + (vec.getD 1 0 - vec.getD 3 0) / (vec.getD 1 0 + vec.getD 3 0)) := by
  unfold pixel_step
  simp only [pydiv_ok _ _ h1, pydiv_ok _ _ h2, pydiv_ok _ _ h3, pydiv_ok _ _ h4,
    ok_bind, ok_map]
  rfl

theorem accumulate_ok (w h : ℕ) (arr : List (List (List ℚ))) (B N V W2 : ℕ → ℕ → ℚ)
    (hstep : ∀ (acc : ℚ × ℚ × ℚ × ℚ) (i : ℕ), i < h → ∀ j : ℕ, j < w →
        pixel_step ((arr.getD i []).getD j []) acc
          = .ok (acc.1 + B i j, acc.2.1 + N i j, acc.2.2.1 + V i j, acc.2.2.2 + W2 i j)) :
    accumulate w h arr = .ok
      (∑ i ∈ Finset.range h, ∑ j ∈ Finset.range w, B i j,
       ∑ i ∈ Finset.range h, ∑ j ∈ Finset.range w, N i j,
       ∑ i ∈ Finset.range h, ∑ j ∈ Finset.range w, V i j,
       ∑ i ∈ Finset.range h, ∑ j ∈ Finset.range w, W2 i j) := by
  unfold accumulate
  have hinner : ∀ (acc : ℚ × ℚ × ℚ × ℚ) (i : ℕ), i ∈ List.range h →
      (List.range w).foldlM (fun acc j =>
          pixel_step ((arr.getD i []).getD j []) acc) acc
        = .ok (acc.1 + ∑ j ∈ Finset.range w, B i j,
               acc.2.1 + ∑ j ∈ Finset.range w, N i j,
               acc.2.2.1 + ∑ j ∈ Finset.range w, V i j,
               acc.2.2.2 + ∑ j ∈ Finset.range w, W2 i j) := by
    intro acc i hi
    have hi2 := List.mem_range.mp hi
    rw [foldlM_ok _
      (fun acc j => (acc.1 + B i j, acc.2.1 + N i j, acc.2.2.1 + V i j, acc.2.2.2 + W2 i j))
      (List.range w) (fun b j hj => hstep b i hi2 j (List.mem_range.mp hj)) acc]
    rw [foldl_add4_range]
  rw [foldlM_ok _
    (fun acc i => (acc.1 + ∑ j ∈ Finset.range w, B i j,
      acc.2.1 + ∑ j ∈ Finset.range w, N i j,
      acc.2.2.1 + ∑ j ∈ Finset.range w, V i j,
      acc.2.2.2 + ∑ j ∈ Finset.range w, W2 i j))
    (List.range h) (fun b i hi => hinner b i hi) (0, 0, 0, 0)]
  rw [foldl_add4_range]
  simp

end SpectralMetrics

/- Histogram helper lemmas. -/

namespace PixelCategory

theorem lookup_canon (K : List ℤ) (c : ℤ → ℕ) (v : ℤ) :
    (K.map (fun k => (k, c k))).lookup v = if v ∈ K then some (c v) else none := by
  induction K with
  | nil => rfl
  | cons k t ih =>
    by_cases hv : v = k
    · subst hv
      simp [List.lookup]
    · have hbeq : (v == k) = false := beq_eq_false_iff_ne.mpr hv
      simp [List.lookup, hbeq, ih, hv, List.mem_cons]

theorem mem_foldl_insert (l : List ℤ) :
    ∀ (acc : List ℤ) (v : ℤ),
      (v ∈ l.foldl (fun acc x => if x ∈ acc then acc else acc ++ [x]) acc)
        ↔ (v ∈ acc ∨ v ∈ l) := by
  induction l with
  | nil => intro acc v; simp
  | cons a t ih =>
    intro acc v
    rw [List.foldl_cons, ih]
    by_cases ha : a ∈ acc
    · rw [if_pos ha]
      constructor
      · intro h
        rcases h with h | h
        · exact Or.inl h
        · exact Or.inr (List.mem_cons_of_mem a h)
      · intro h
        rcases h with h | h
        · exact Or.inl h
        · rcases List.mem_cons.mp h with rfl | h2
          · exact Or.inl ha
          · exact Or.inr h2
    · rw [if_neg ha]
      constructor
      · intro h
        rcases h with h | h
        · rcases List.mem_append.mp h with h1 | h1
          · exact Or.inl h1
          · exact Or.inr (by rw [List.mem_singleton.mp h1]; exact List.mem_cons_self a t)
        · exact Or.inr (List.mem_cons_of_mem a h)
      · intro h
        rcases h with h | h
        · exact Or.inl (List.mem_append.mpr (Or.inl h))
        · rcases List.mem_cons.mp h with rfl | h2
          · exact Or.inl (List.mem_append.mpr (Or.inr (List.mem_singleton.mpr rfl)))
          · exact Or.inr h2

theorem mem_firstOccur (l : List ℤ) (v : ℤ) : v ∈ firstOccur l ↔ v ∈ l := by
  unfold firstOccur; rw [mem_foldl_insert]; simp

theorem firstOccur_append (d : List ℤ) (x : ℤ) :
    firstOccur (d ++ [x])
      = if x ∈ firstOccur d then firstOccur d else firstOccur d ++ [x] := by
  unfold firstOccur
  rw [List.foldl_append]
  rfl

theorem histStep_canon (d : List ℤ) (v : ℤ) :
    histStep (hist_spec d) v = hist_spec (d ++ [v]) := by
  unfold histStep hist_spec
  rw [lookup_canon]
  by_cases hv : v ∈ d
  · have hvK : v ∈ firstOccur d := (mem_firstOccur d v).mpr hv
    rw [if_pos hvK, if_neg (by simp)]
    rw [firstOccur_append, if_pos hvK, List.map_map]
    apply List.map_congr_left
    intro k hk
    by_cases hkv : k = v
    · subst hkv
      simp [List.count_append, List.count_singleton']
    · simp [hkv, List.count_append, List.count_singleton', Ne.symm hkv]
  · have hvK : v ∉ firstOccur d := fun hc => hv ((mem_firstOccur d v).mp hc)
    rw [if_neg hvK, if_pos (by simp)]
    rw [firstOccur_append, if_neg hvK, List.map_append, List.map_append, List.map_map]
    congr 1
    · apply List.map_congr_left
      intro k hk
      have hkd : k ∈ d := (mem_firstOccur d k).mp hk
      have hkv : k ≠ v := fun hkv2 => hv (hkv2 ▸ hkd)
      simp [hkv, List.count_append, List.count_singleton', Ne.symm hkv]
    · simp [List.count_append, List.count_singleton', List.count_eq_zero.mpr hv]

theorem foldl_histStep_canon (l : List ℤ) :
    ∀ d : List ℤ, l.foldl histStep (hist_spec d) = hist_spec (d ++ l) := by
  induction l with
  | nil => intro d; simp
  | cons v t ih =>
    intro d
    rw [List.foldl_cons, histStep_canon, ih (d ++ [v])]
    simp

end PixelCategory

/- Texture helper lemmas. -/

namespace Glcm

theorem symTotal_pos (img : GrayImage) (off : ℤ × ℤ) (h : 0 < validPairs img off) :
    0 < symTotal img off := by
  obtain ⟨p, hp⟩ := Finset.card_pos.mp h
  rcases Finset.mem_filter.mp hp with ⟨hpg, hin⟩
  have hmem : p ∈ (posGrid img).filter (fun q => inGrid img off q ∧
      pixAt img off q = ((pixAt img off p).1, (pixAt img off p).2)) :=
    Finset.mem_filter.mpr ⟨hpg, hin, rfl⟩
  have h2 : 0 < pairCount img off (pixAt img off p).1 (pixAt img off p).2 :=
    Finset.card_pos.mpr ⟨p, hmem⟩
  have h3 : pairCount img off (pixAt img off p).1 (pixAt img off p).2
      ≤ symCount img off (pixAt img off p).1 (pixAt img off p).2 := Nat.le_add_right _ _
  have hnn : ∀ q ∈ (Finset.univ : Finset (Fin 256 × Fin 256)),
      0 ≤ (fun q : Fin 256 × Fin 256 => symCount img off q.1 q.2) q :=
    fun _ _ => Nat.zero_le _
  have h4 := Finset.single_le_sum hnn
    (Finset.mem_univ ((pixAt img off p).1, (pixAt img off p).2))
  exact lt_of_lt_of_le (lt_of_lt_of_le h2 h3) h4

theorem normP_sum_one (img : GrayImage) (off : ℤ × ℤ) (h : 0 < validPairs img off) :
    (∑ q : Fin 256 × Fin 256, normP img off q.1 q.2) = 1 := by
  have hT := symTotal_pos img off h
  unfold normP
  rw [← Finset.sum_div]
  have hcast : (∑ q : Fin 256 × Fin 256, (symCount img off q.1 q.2 : ℚ))
      = ((symTotal img off : ℕ) : ℚ) := by
    unfold symTotal; push_cast; rfl
  rw [hcast]
  exact div_self (by exact_mod_cast hT.ne')

theorem glcmStep_inv (date : ℤ) (m : List (String × GlcmImage)) (img : GlcmImage)
    (hm : ∀ p ∈ m, p.2.files.length = 4) :
    ∀ p ∈ glcmStep date m img, p.2.files.length = 4 := by
  intro p hp
  unfold glcmStep at hp
  by_cases hlen : img.files.length ≠ 4
  · rw [if_pos hlen] at hp; exact hm p hp
  · rw [if_neg hlen] at hp
    have hlen4 : img.files.length = 4 := not_not.mp hlen
    rcases hml : m.lookup img.geocode with _ | prev
    · rw [hml] at hp
      have hp2 : p ∈ m ++ [(img.geocode, img)] := hp
      rcases List.mem_append.mp hp2 with hpm | hpn
      · exact hm p hpm
      · rw [List.mem_singleton.mp hpn]; exact hlen4
    · rw [hml] at hp
      have hp2 : p ∈ (if (prev.timestamp - date).natAbs > (img.timestamp - date).natAbs
          then m.map (fun q => if q.1 = img.geocode then (q.1, img) else q) else m) := hp
      by_cases hcl : (prev.timestamp - date).natAbs > (img.timestamp - date).natAbs
      · rw [if_pos hcl] at hp2
        rcases List.mem_map.mp hp2 with ⟨q, hq, hpq⟩
        by_cases hqg : q.1 = img.geocode
        · rw [if_pos hqg] at hpq; rw [← hpq]; exact hlen4
        · rw [if_neg hqg] at hpq; rw [← hpq]; exact hm q hq
      · rw [if_neg hcl] at hp2; exact hm p hp2

theorem glcm_fold_inv (date : ℤ) :
    ∀ (imgs : List GlcmImage) (m : List (String × GlcmImage)),
      (∀ p ∈ m, p.2.files.length = 4) →
      ∀ p ∈ imgs.foldl (glcmStep date) m, p.2.files.length = 4 := by
  intro imgs
  induction imgs with
  | nil => intro m hm; exact hm
  | cons img t ih =>
    intro m hm
    exact ih (glcmStep date m img) (glcmStep_inv date m img hm)

end Glcm

/- Claim theorems. -/

/-- Claim C1: for every image, the aligned grid computed before per-pixel work
is the componentwise maximum of the native dimensions of the selected bands,
never less than any band's native dimension — for the cloud-coverage
dimension loop (on nonempty native arrays), for the spectral dimension fold,
and for the full spectral open-and-measure pass over the band-selector list. -/
theorem aligned_grid_max (arrays : List PyArray) (dims : List (ℕ × ℕ))
    (f0 f1 : SpectralMetrics.RasterFile) (r2 r3 : Option SpectralMetrics.RasterFile)
    (hne : ∀ a ∈ arrays, a ≠ []) :
    (CloudCoverage.compute_max_dims arrays
        = .ok ((arrays.map CloudCoverage.nativeW).foldl max 0,
               (arrays.map CloudCoverage.nativeH).foldl max 0)
      ∧ ∀ a ∈ arrays,
          CloudCoverage.nativeW a ≤ (arrays.map CloudCoverage.nativeW).foldl max 0
          ∧ CloudCoverage.nativeH a ≤ (arrays.map CloudCoverage.nativeH).foldl max 0)
    ∧ (SpectralMetrics.spectral_dims dims
        = ((dims.map Prod.fst).foldl max 0, (dims.map Prod.snd).foldl max 0)
      ∧ ∀ d ∈ dims, d.1 ≤ (SpectralMetrics.spectral_dims dims).1
          ∧ d.2 ≤ (SpectralMetrics.spectral_dims dims).2)
    ∧ SpectralMetrics.open_dims [some f0, some f1, r2, r3]
        = .ok (SpectralMetrics.grid_w f0 f1, SpectralMetrics.grid_h f0 f1) := by
  refine ⟨⟨CloudCoverage.compute_max_dims_ok arrays hne, ?_⟩,
    ⟨SpectralMetrics.spectral_dims_eq dims, ?_⟩,
    SpectralMetrics.open_dims_eval f0 f1 r2 r3⟩
  · intro a ha
    exact ⟨le_foldl_max _ _ (List.mem_map_of_mem _ ha) 0,
           le_foldl_max _ _ (List.mem_map_of_mem _ ha) 0⟩
  · intro d hd
    rw [SpectralMetrics.spectral_dims_eq dims]
    exact ⟨le_foldl_max _ _ (List.mem_map_of_mem _ hd) 0,
           le_foldl_max _ _ (List.mem_map_of_mem _ hd) 0⟩

/-- Witness for C1 at the concrete 1×1 and 2×2 native arrays. -/
theorem aligned_grid_max_witness :
    CloudCoverage.compute_max_dims arraysW
      = .ok ((arraysW.map CloudCoverage.nativeW).foldl max 0,
             (arraysW.map CloudCoverage.nativeH).foldl max 0) :=
  (aligned_grid_max arraysW [] f0c f1c none none (by decide)).1.1

/-- Claim C3 counterexample: a raster that cannot be opened makes `process`
raise (here an AttributeError), the error propagates through `pool.map`
instead of being converted to a diagnostic report, and the other image of the
batch gets no result list — contradicting the claim that per-image errors are
caught at the dispatcher boundary and never abort the batch. -/
theorem dispatcher_error_counterexample :
    SpectralMetrics.process badImage = .error .attributeError
    ∧ pool_map SpectralMetrics.process [badImage, goodImage] = .error .attributeError
    ∧ SpectralMetrics.process goodImage
        = .ok (some ("9q8y", 0, (0, -1/11, 1/3, -1/5))) :=
  ⟨by decide, by decide, by decide⟩

/-- Claim C3 amended: the only per-image error the scripts handle is the
file-count check, which is converted to a diagnostic skip; any other
per-image error (such as an unopenable raster) propagates out of `process`
and is re-raised by `pool.map`, so the whole batch produces an error instead
of the remaining images' reports. -/
theorem dispatcher_error_amended :
    (∀ image : SpectralMetrics.SpectralImage, image.files.length ≠ 4 →
        SpectralMetrics.process image = .ok none)
    ∧ ∀ (images : List SpectralMetrics.SpectralImage)
        (image : SpectralMetrics.SpectralImage) (e : PyErr),
        image ∈ images → SpectralMetrics.process image = .error e →
        ∃ e2, pool_map SpectralMetrics.process images = .error e2 := by
  constructor
  · intro image h
    unfold SpectralMetrics.process
    rw [if_pos h]
  · intro images image e hmem herr
    exact pool_map_error _ images image e hmem herr

/-- Witness for the amended C3 at a 3-file image and a 2-image batch whose
first image has an unopenable raster. -/
theorem dispatcher_error_amended_witness :
    SpectralMetrics.process shortImage = .ok none
    ∧ ∃ e2, pool_map SpectralMetrics.process [badImage, goodImage] = .error e2 :=
  ⟨dispatcher_error_amended.1 shortImage (by decide),
   dispatcher_error_amended.2 [badImage, goodImage] badImage .attributeError
     (List.mem_cons_self _ _) (by decide)⟩

/-- Claim C4: an image whose file list does not have exactly the required
count (4) is rejected before any band is opened: the spectral `process`
prints a diagnostic and emits no result whatever the files hold, and the
texture script's selection loop silently never admits such an image. -/
theorem file_count_guard :
    (∀ image : SpectralMetrics.SpectralImage, image.files.length ≠ 4 →
        SpectralMetrics.process image = .ok none)
    ∧ ∀ (date : ℤ) (imgs : List Glcm.GlcmImage) (p : String × Glcm.GlcmImage),
        p ∈ Glcm.glcm_images date imgs → p.2.files.length = 4 := by
  constructor
  · intro image h
    unfold SpectralMetrics.process
    rw [if_pos h]
  · intro date imgs p hp
    exact Glcm.glcm_fold_inv date imgs [] (fun q hq => absurd hq (List.not_mem_nil q)) p hp

/-- Witness for C4 at a 3-file image and a 2-image catalog stream. -/
theorem file_count_guard_witness :
    SpectralMetrics.process shortImage = .ok none ∧ g1.files.length = 4 :=
  ⟨file_count_guard.1 shortImage (by decide),
   file_count_guard.2 10 [g1, g2] ("a", g1) (by decide)⟩

/-- Claim C6: on an image whose bands are all zero, every spectral-index
denominator is zero at pixel (0,0) and `compute_spectral_metrics` raises an
unguarded ZeroDivisionError; no MetricResult is produced, and `process` does
not handle it either. -/
theorem spectral_zero_denominator :
    SpectralMetrics.compute_spectral_metrics zeroFiles = .error .zeroDivision
    ∧ SpectralMetrics.process zeroImage = .error .zeroDivision := by
  decide

/-- Claim C7: the categorical histogram maps each distinct pixel value to its
occurrence count over the whole array, with keys in order of first occurrence
during row-major traversal; in particular on [[1,1],[2,3]] it yields
{1:2, 2:1, 3:1}. -/
theorem histogram_first_occurrence :
    (∀ array : List (List ℤ),
        PixelCategory.pixel_counts array = PixelCategory.hist_spec array.flatten
        ∧ (PixelCategory.pixel_counts array).map Prod.fst
            = PixelCategory.firstOccur array.flatten
        ∧ ∀ v : ℤ, (PixelCategory.pixel_counts array).lookup v
            = if v ∈ array.flatten then some (array.flatten.count v) else none)
    ∧ PixelCategory.pixel_counts [[1, 1], [2, 3]] = [(1, 2), (2, 1), (3, 1)] := by
  constructor
  · intro array
    have hmain : PixelCategory.pixel_counts array
        = PixelCategory.hist_spec array.flatten := by
      unfold PixelCategory.pixel_counts
      rw [← List.foldl_flatten]
      exact PixelCategory.foldl_histStep_canon array.flatten []
    refine ⟨hmain, ?_, ?_⟩
    · rw [hmain]
      unfold PixelCategory.hist_spec
      rw [List.map_map]
      exact List.map_id _
    · intro v
      rw [hmain]
      unfold PixelCategory.hist_spec
      rw [PixelCategory.lookup_canon]
      rw [if_congr (PixelCategory.mem_firstOccur array.flatten v) rfl rfl]
  · decide

/-- Claim C10 counterexample: with every band's native array empty (native
width and height 0), the cloud-coverage computation does not reach its final
reduction at all: `len(array[0])` raises an IndexError already in the
aligned-grid loop, so the failure is not a division by zero. -/
theorem empty_grid_counterexample :
    CloudCoverage.compute_cloud_coverage emptyBandData zclass = .error .indexError
    ∧ CloudCoverage.compute_cloud_coverage emptyBandData zclass
        ≠ .error .zeroDivision := by
  decide

namespace SpectralMetrics

/-- Claim C2: when the five selected bands are resampled to the common grid
and scaled by 1/10000 in band-selector order, `compute_spectral_metrics`
returns exactly the four arithmetic means over all width*height pixels of
BSI, NDBI, NDVI and NDWI as given by the spec's formulas (on a grid with at
least one pixel and no zero denominator, the regime where Python's division
is defined). -/
theorem spectral_metrics_mean (f0 f1 : RasterFile) (r2 r3 : Option RasterFile)
    (hp : 0 < grid_w f0 f1 * grid_h f0 f1)
    (hd : ∀ i < grid_h f0 f1, ∀ j < grid_w f0 f1,
        bsi_den f0 f1 i j ≠ 0 ∧ ndbi_den f0 f1 i j ≠ 0
          ∧ ndvi_den f0 i j ≠ 0 ∧ ndwi_den f0 i j ≠ 0) :
    compute_spectral_metrics [some f0, some f1, r2, r3]
      = .ok (gridMean (grid_w f0 f1) (grid_h f0 f1) (bsi_px f0 f1),
             gridMean (grid_w f0 f1) (grid_h f0 f1) (ndbi_px f0 f1),
             gridMean (grid_w f0 f1) (grid_h f0 f1) (ndvi_px f0),
             gridMean (grid_w f0 f1) (grid_h f0 f1) (ndwi_px f0)) := by
  have hacc := accumulate_ok (grid_w f0 f1) (grid_h f0 f1)
      (band_array [f0.band 1, f0.band 2, f0.band 3, f0.band 4, f1.band 5]
        (grid_w f0 f1) (grid_h f0 f1))
      (bsi_px f0 f1) (ndbi_px f0 f1) (ndvi_px f0) (ndwi_px f0)
      (by
        intro acc i hi j hj
        obtain ⟨hd1, hd2, hd3, hd4⟩ := hd i hi j hj
        rw [band_array_get _ _ _ i j hi hj]
        exact pixel_step_ok _ acc hd1 hd2 hd3 hd4)
  have hz : ((grid_w f0 f1 * grid_h f0 f1 : ℕ) : ℚ) ≠ 0 :=
    Nat.cast_ne_zero.mpr hp.ne'
  unfold compute_spectral_metrics
  rw [open_dims_eval f0 f1 r2 r3]
  simp only [ok_bind]
  rw [open_readers_eval f0 f1 r2 r3]
  simp only [ok_bind]
  rw [hacc]
  simp only [ok_bind]
  rw [pydiv_ok _ _ hz]
  simp only [ok_bind]
  rw [pydiv_ok _ _ hz]
  simp only [ok_bind]
  rw [pydiv_ok _ _ hz]
  simp only [ok_bind]
  rw [pydiv_ok _ _ hz]
  rfl

/-- Witness for C2 at the 1×1 image holding the spec's section-8 example
values (B02=0.1, B03=0.2, B04=0.15, B08=0.3, B11=0.25 after scaling). -/
theorem spectral_metrics_mean_witness :
    compute_spectral_metrics [some f0c, some f1c, some f0c, some f0c]
      = .ok (gridMean (grid_w f0c f1c) (grid_h f0c f1c) (bsi_px f0c f1c),
             gridMean (grid_w f0c f1c) (grid_h f0c f1c) (ndbi_px f0c f1c),
             gridMean (grid_w f0c f1c) (grid_h f0c f1c) (ndvi_px f0c),
             gridMean (grid_w f0c f1c) (grid_h f0c f1c) (ndwi_px f0c)) :=
  spectral_metrics_mean f0c f1c (some f0c) (some f0c) (by decide) (by decide)

end SpectralMetrics

namespace CloudCoverage

/-- Claim C5: on a grid with at least one pixel, the cloud-coverage reduction
returns cloud_pixels / (cloud_pixels + clear_pixels) = cloud_pixels /
(width*height), the value lies in [0,1], clear plus cloud pixels equal the
grid size, and an all-clear (all-cloud) mask yields exactly 0 (exactly 1)
without error. -/
theorem cloud_coverage_bounds (width height : ℕ) (mask : ℕ → ℕ → ℤ)
    (hp : 0 < width * height) :
    (count_pixels width height mask).1 + (count_pixels width height mask).2
        = width * height
    ∧ coverage_result width height mask
        = .ok (((count_pixels width height mask).1 : ℚ) / ((width * height : ℕ) : ℚ))
    ∧ 0 ≤ (((count_pixels width height mask).1 : ℚ) / ((width * height : ℕ) : ℚ))
    ∧ (((count_pixels width height mask).1 : ℚ) / ((width * height : ℕ) : ℚ)) ≤ 1
    ∧ ((∀ i < height, ∀ j < width, mask i j = 0) →
        coverage_result width height mask = .ok 0)
    ∧ ((∀ i < height, ∀ j < width, mask i j ≠ 0) →
        coverage_result width height mask = .ok 1) := by
  have hce := count_pixels_eq width height mask
  have hcl : (count_pixels width height mask).1
      = ∑ i ∈ Finset.range height, ∑ j ∈ Finset.range width,
          (if mask i j = 0 then 0 else 1) := by rw [hce]
  have hcr : (count_pixels width height mask).2
      = ∑ i ∈ Finset.range height, ∑ j ∈ Finset.range width,
          (if mask i j = 0 then 1 else 0) := by rw [hce]
  have hsum : (count_pixels width height mask).1 + (count_pixels width height mask).2
      = width * height := by
    rw [hcl, hcr, ← Finset.sum_add_distrib]
    have h1 : ∀ i ∈ Finset.range height,
        ((∑ j ∈ Finset.range width, (if mask i j = 0 then 0 else 1))
          + ∑ j ∈ Finset.range width, (if mask i j = 0 then 1 else 0)) = width := by
      intro i _
      rw [← Finset.sum_add_distrib]
      have h2 : ∀ j ∈ Finset.range width,
          ((if mask i j = 0 then 0 else 1) + (if mask i j = 0 then 1 else 0)) = 1 := by
        intro j _
        by_cases h : mask i j = 0 <;> simp [h]
      rw [Finset.sum_congr rfl h2, Finset.sum_const, Finset.card_range, smul_eq_mul,
        mul_one]
    rw [Finset.sum_congr rfl h1, Finset.sum_const, Finset.card_range, smul_eq_mul,
      Nat.mul_comm]
  have hz : ((width * height : ℕ) : ℚ) ≠ 0 := Nat.cast_ne_zero.mpr hp.ne'
  have hcast : (((count_pixels width height mask).1 : ℚ)
        + ((count_pixels width height mask).2 : ℚ))
      = ((width * height : ℕ) : ℚ) := by
    rw [← Nat.cast_add, hsum]
  have hratio : coverage_result width height mask
      = .ok (((count_pixels width height mask).1 : ℚ)
          / ((width * height : ℕ) : ℚ)) := by
    show pydiv ((count_pixels width height mask).1 : ℚ)
        (((count_pixels width height mask).1 : ℚ)
          + ((count_pixels width height mask).2 : ℚ)) = _
    rw [hcast, pydiv_ok _ _ hz]
  have hle : (((count_pixels width height mask).1 : ℚ)
      / ((width * height : ℕ) : ℚ)) ≤ 1 := by
    rw [div_le_one (by exact_mod_cast hp)]
    exact_mod_cast Nat.le.intro hsum
  refine ⟨hsum, hratio, div_nonneg (Nat.cast_nonneg _) (Nat.cast_nonneg _), hle, ?_, ?_⟩
  · intro hm
    have hcl0 : (count_pixels width height mask).1 = 0 := by
      rw [hcl]
      apply Finset.sum_eq_zero
      intro i hi
      apply Finset.sum_eq_zero
      intro j hj
      rw [if_pos (hm i (Finset.mem_range.mp hi) j (Finset.mem_range.mp hj))]
    rw [hratio, hcl0]
    simp
  · intro hm
    have hclw : (count_pixels width height mask).1 = width * height := by
      rw [hcl]
      have h2 : ∀ i ∈ Finset.range height,
          (∑ j ∈ Finset.range width, (if mask i j = 0 then (0:ℕ) else 1)) = width := by
        intro i hi
        have h3 : ∀ j ∈ Finset.range width, (if mask i j = 0 then (0:ℕ) else 1) = 1 := by
          intro j hj
          rw [if_neg (hm i (Finset.mem_range.mp hi) j (Finset.mem_range.mp hj))]
        rw [Finset.sum_congr rfl h3, Finset.sum_const, Finset.card_range, smul_eq_mul,
          mul_one]
      rw [Finset.sum_congr rfl h2, Finset.sum_const, Finset.card_range, smul_eq_mul,
        Nat.mul_comm]
    rw [hratio, hclw, div_self hz]

/-- Witness for C5 at a 1×1 grid with an all-clear mask. -/
theorem cloud_coverage_bounds_witness :
    (count_pixels 1 1 zmask).1 + (count_pixels 1 1 zmask).2 = 1 * 1
    ∧ coverage_result 1 1 zmask
        = .ok (((count_pixels 1 1 zmask).1 : ℚ) / ((1 * 1 : ℕ) : ℚ)) :=
  ⟨(cloud_coverage_bounds 1 1 zmask (by decide)).1,
   (cloud_coverage_bounds 1 1 zmask (by decide)).2.1⟩

/-- Claim C8: result writeback sets the CLOUD_COVERAGE tag in the STIP
namespace on every file of the listing that matches the image's source and
tile (the sibling band directories), and — the listing holding each distinct
file once — each distinct file is written at most once per image. -/
theorem writeback_dedup (fs : List TileFile) (source tile : String) (v : ℚ)
    (hfs : fs.Nodup) :
    (∀ f ∈ fs, f.source = source → f.tile = tile →
        (⟨f, "CLOUD_COVERAGE", "STIP", v⟩ : TagWrite) ∈ update_bands fs source tile v)
    ∧ (update_bands fs source tile v).Nodup
    ∧ (∀ t ∈ update_bands fs source tile v,
        t.key = "CLOUD_COVERAGE" ∧ t.domain = "STIP" ∧ t.value = v)
    ∧ ∀ t : TagWrite, (update_bands fs source tile v).count t ≤ 1 := by
  have hnd : (update_bands fs source tile v).Nodup := by
    unfold update_bands
    refine (hfs.filter _).map_on ?_
    intro x _ y _ hxy
    simpa using congrArg TagWrite.file hxy
  refine ⟨?_, hnd, ?_, ?_⟩
  · intro f hf hs ht
    unfold update_bands glob_matches
    apply List.mem_map_of_mem
    apply List.mem_filter.mpr
    exact ⟨hf, by simp [hs, ht]⟩
  · intro t ht
    unfold update_bands at ht
    rcases List.mem_map.mp ht with ⟨f, _, hft⟩
    rw [← hft]
    exact ⟨rfl, rfl, rfl⟩
  · intro t
    exact List.nodup_iff_count_le_one.mp hnd t

/-- Witness for C8 at a three-file listing with two matching band files. -/
theorem writeback_dedup_witness :
    (update_bands fsW "s" "t" (1/2)).Nodup
    ∧ (⟨⟨"B01", "s", "t"⟩, "CLOUD_COVERAGE", "STIP", 1/2⟩ : TagWrite)
        ∈ update_bands fsW "s" "t" (1/2) :=
  ⟨(writeback_dedup fsW "s" "t" (1/2) (by decide)).2.1,
   (writeback_dedup fsW "s" "t" (1/2) (by decide)).1 ⟨"B01", "s", "t"⟩ (by decide)
     rfl rfl⟩

end CloudCoverage

namespace Glcm

/-- Claim C9: the texture metric is built from a symmetric co-occurrence
matrix, normalized to total mass 1, at distances {1,2,3} and the four angles,
each of the six properties (contrast, dissimilarity, homogeneity, energy,
correlation, ASM) is reduced by averaging over the four angles, and the
emitted vector has exactly 18 scalars flattened property-major (entry
3*k + di is property k at distance di). -/
theorem glcm_features_spec (img : GrayImage)
    (hv : ∀ d ∈ distances, ∀ a ∈ List.range 4, 0 < validPairs img (offset a d)) :
    (glcm_features img).length = 18
    ∧ (∀ (off : ℤ × ℤ) (i j : Fin 256), symCount img off i j = symCount img off j i)
    ∧ (∀ d ∈ distances, ∀ a ∈ List.range 4,
        (∑ q : Fin 256 × Fin 256, normP img (offset a d) q.1 q.2) = 1)
    ∧ glcm_features img
        = [propAvg img contrastR 1, propAvg img contrastR 2, propAvg img contrastR 3,
           propAvg img dissimilarityR 1, propAvg img dissimilarityR 2,
           propAvg img dissimilarityR 3,
           propAvg img homogeneityR 1, propAvg img homogeneityR 2,
           propAvg img homogeneityR 3,
           propAvg img energyProp 1, propAvg img energyProp 2, propAvg img energyProp 3,
           propAvg img correlationProp 1, propAvg img correlationProp 2,
           propAvg img correlationProp 3,
           propAvg img asmR 1, propAvg img asmR 2, propAvg img asmR 3] := by
  refine ⟨rfl, ?_, ?_, rfl⟩
  · intro off i j
    unfold symCount
    exact Nat.add_comm _ _
  · intro d hd a ha
    exact normP_sum_one img (offset a d) (hv d hd a ha)

/-- Witness for C9 at a 4×4 all-zero grayscale image: its feature vector has
18 entries and its normalized matrix at distance 1, angle 0° sums to 1. -/
theorem glcm_features_spec_witness :
    (glcm_features w4img).length = 18
    ∧ (∑ q : Fin 256 × Fin 256, normP w4img (offset 0 1) q.1 q.2) = 1 :=
  ⟨(glcm_features_spec w4img (by decide)).1,
   (glcm_features_spec w4img (by decide)).2.2.1 1 (by decide) 0 (by decide)⟩

end Glcm

/-- Claim C10 amended: the spectral pipeline on all-0×0 bands reaches its
final reduction and divides by zero (total_pixels = 0); the cloud pipeline
divides by zero in its reduction when the aligned grid has zero pixels with
nonempty band arrays (zero-width rows), while all-empty band arrays raise an
IndexError in the aligned-grid loop before any division. -/
theorem empty_grid_divzero :
    SpectralMetrics.compute_spectral_metrics emptyFiles = .error .zeroDivision
    ∧ CloudCoverage.compute_cloud_coverage zeroWidthBandData zclass
        = .error .zeroDivision
    ∧ CloudCoverage.compute_cloud_coverage emptyBandData zclass
        = .error .indexError := by
  decide

end Stip
